import Mathlib

/-!
Verification of the video-device-plugin daemon: a shallow embedding of the
device registry (`v4l2_manager.go`), the allocation protocol handler
(`device_plugin.go`) and the capability probe, together with theorems that
settle the specification claims against the embedded code.

The filesystem and the external capability probe are abstracted as explicit
inputs (`FileSystem`, a probe function), so every embedded operation is a
pure, executable function of its state and environment.
-/

namespace VideoPlugin

/-- Embeds `VideoDevice` from `types.go`: device id, device-node path and the
allocation flag read by `sendDeviceList`.  (`AllocatedAt` is a timestamp used
only for logging and is omitted.) -/
structure VideoDevice where
  id : String
  path : String
  allocated : Bool := false
deriving Repr, DecidableEq

/-- Abstraction of the host filesystem: which paths exist (`os.Stat` succeeds)
and which are readable (`os.Open` succeeds), as consulted by
`checkDeviceExists` / `checkDeviceReadable` in `utils.go`. -/
structure FileSystem where
  pathPresent : String → Bool
  pathReadable : String → Bool

/-- Embeds `checkDeviceExists` from `utils.go`. -/
def checkDeviceExists (fs : FileSystem) (path : String) : Bool :=
  fs.pathPresent path

/-- Embeds `checkDeviceReadable` from `utils.go`. -/
def checkDeviceReadable (fs : FileSystem) (path : String) : Bool :=
  fs.pathReadable path

/-- Embeds the constant `VideoDeviceStartNumber` from `utils.go`. -/
def VideoDeviceStartNumber : Nat := 10

/-- Device id `fmt.Sprintf("video%d", n)` as built in `CreateDevices`. -/
def deviceId (n : Nat) : String := "video" ++ toString n

/-- Device path `fmt.Sprintf("/dev/video%d", n)` as built in `CreateDevices`. -/
def devicePath (n : Nat) : String := "/dev/video" ++ toString n

/-- The in-memory registry state of `v4l2Manager` (`v4l2_manager.go`): the
`devices` map, modelled as an association list from device id to record. -/
structure ManagerState where
  devices : List (String × VideoDevice)
deriving Repr, DecidableEq

/-- The device set computed by the discovery loop of `CreateDevices`
(`v4l2_manager.go` lines 43-74): for each `i` in `[0, count)`, the ordinal
`VideoDeviceStartNumber + i` yields a record iff its node exists and is
readable.  The `os.Chmod` call affects only the node's permission bits, not
the registry, and is not modelled. -/
def discoverLoop (fs : FileSystem) (count : Nat) : List (String × VideoDevice) :=
  (List.range count).filterMap (fun i =>
    let n := VideoDeviceStartNumber + i
    if checkDeviceExists fs (devicePath n) && checkDeviceReadable fs (devicePath n) then
      some (deviceId n, { id := deviceId n, path := devicePath n, allocated := false })
    else
      none)

/-- Embeds `CreateDevices` (`v4l2_manager.go` lines 32-92): clears the prior
device map, registers every discovered ordinal, and reports the error
`"no video devices were found"` exactly when nothing was discovered (a
shortfall below `count` is only a logged warning).  Returns the new state and
the optional error; on error the state is the cleared (empty) map, as in the
source. -/
def CreateDevices (fs : FileSystem) (count : Nat) (_s : ManagerState) :
    ManagerState × Option String :=
  let ds := discoverLoop fs count
  (⟨ds⟩, if ds.isEmpty then some "no video devices were found" else none)

/-- Embeds `GetDeviceByID` (`v4l2_manager.go` lines 95-109): looks the id up
in the map and returns a copy holding only `ID` and `Path`, or the
`"device not found"` error. -/
def GetDeviceByID (s : ManagerState) (deviceID : String) : Except String VideoDevice :=
  match s.devices.lookup deviceID with
  | none => .error ("device not found: " ++ deviceID)
  | some d => .ok { id := d.id, path := d.path }

/-- Embeds `ListAllDevices` (`v4l2_manager.go` lines 163-177): a fresh map of
copies holding only `ID` and `Path` (so the copies carry `allocated = false`
whatever the internal record said). -/
def ListAllDevices (s : ManagerState) : List (String × VideoDevice) :=
  s.devices.map (fun p => (p.1, { id := p.2.id, path := p.2.path }))

/-- Embeds `IsHealthy` (`v4l2_manager.go` lines 111-139): with a non-empty
map, every registered record's path must exist and be readable; with an empty
map, fall back to probing the fixed ordinal range
`[VideoDeviceStartNumber, VideoDeviceStartNumber + maxDevices)` directly. -/
def IsHealthy (fs : FileSystem) (s : ManagerState) (maxDevices : Nat) : Bool :=
  if s.devices.length > 0 then
    s.devices.all (fun p =>
      checkDeviceExists fs p.2.path && checkDeviceReadable fs p.2.path)
  else
    (List.range maxDevices).all (fun i =>
      checkDeviceExists fs (devicePath (VideoDeviceStartNumber + i)) &&
      checkDeviceReadable fs (devicePath (VideoDeviceStartNumber + i)))

/-- Embeds `GetDeviceCount` (`v4l2_manager.go` lines 141-161): size of the map
when non-empty; otherwise the number of nodes of the fixed ordinal range that
exist on the filesystem (readability is not checked in this branch). -/
def GetDeviceCount (fs : FileSystem) (s : ManagerState) (maxDevices : Nat) : Nat :=
  if s.devices.length > 0 then
    s.devices.length
  else
    ((List.range maxDevices).filter (fun i =>
      checkDeviceExists fs (devicePath (VideoDeviceStartNumber + i)))).length

/-- Embeds `GetDeviceHealth` (`v4l2_manager.go` lines 179-199): basic health
of one registered device — exists and readable; `false` for an unknown id. -/
def GetDeviceHealth (fs : FileSystem) (s : ManagerState) (deviceID : String) : Bool :=
  match s.devices.lookup deviceID with
  | none => false
  | some d => checkDeviceExists fs d.path && checkDeviceReadable fs d.path

/-- Outcome of one invocation of the external `v4l2-ctl --device <path> --info`
probe run under `exec.CommandContext` with a deadline: the deadline expired,
the command failed (non-zero exit or could not run), or it produced output. -/
inductive ProbeOutcome where
  | timeout
  | exitError
  | output (out : String)
deriving Repr, DecidableEq

/-- `strings.Contains hay needle` as used on the probe output. -/
def containsSubstring (hay needle : String) : Bool :=
  (List.range (hay.length + 1)).any (fun i => needle.isPrefixOf (hay.drop i))

/-- Embeds `HasVideoCaptureCapability` (`v4l2_manager.go` lines 201-218).  The
external command's result is supplied by `probe` (a function of device path
and timeout).  A timeout or command failure yields `false`; otherwise the
output must contain `"Video Capture"`.  The function is total and returns a
plain `Bool` — no error is ever propagated to the caller. -/
def HasVideoCaptureCapability (probe : String → Nat → ProbeOutcome)
    (devicePathArg : String) (timeoutSeconds : Nat) : Bool :=
  match probe devicePathArg timeoutSeconds with
  | .timeout => false
  | .exitError => false
  | .output out => containsSubstring out "Video Capture"

/-- The device-plugin wire health enum (`pluginapi.Healthy` / `Unhealthy`). -/
inductive Health where
  | healthy
  | unhealthy
deriving Repr, DecidableEq

/-- A `pluginapi.Device` entry of a `ListAndWatchResponse`: id and health. -/
structure PluginDevice where
  id : String
  health : Health
deriving Repr, DecidableEq

/-- A `pluginapi.DeviceSpec` of a container allocate response. -/
structure DeviceSpec where
  containerPath : String
  hostPath : String
  permissions : String
deriving Repr, DecidableEq

/-- A `pluginapi.ContainerAllocateResponse`: device specs plus env-var map. -/
structure ContainerAllocateResponse where
  devices : List DeviceSpec := []
  envs : List (String × String) := []
deriving Repr, DecidableEq

/-- Embeds `sendDeviceList` (`device_plugin.go` lines 259-280): takes the
copies returned by `ListAllDevices`, keeps those whose `Allocated` flag is
unset, and advertises each with `Health: pluginapi.Healthy` — the health
field is a constant, no probe is consulted. -/
def sendDeviceList (s : ManagerState) : List PluginDevice :=
  (ListAllDevices s).filterMap (fun p =>
    if !p.2.allocated then some { id := p.2.id, health := Health.healthy }
    else none)

/-- Embeds the update loop of `ListAndWatch` (`device_plugin.go` lines
165-196): one update is sent immediately on stream open, then one per firing
of the update channel or the 5-second ticker.  `laterStates` lists the
registry state observed at each later firing, `s0` the state at stream
open; the stream payloads are the corresponding `sendDeviceList` results. -/
def ListAndWatchStream (s0 : ManagerState) (laterStates : List ManagerState) :
    List (List PluginDevice) :=
  sendDeviceList s0 :: laterStates.map sendDeviceList

/-- Modelled from the spec: the v4l2-manager method `AllocateDevice(deviceID)`
called by `allocateContainer` is absent from the sources (only callers and
unrelated first-available variants exist).  Per the spec's Allocate contract —
"for each requested id, look up the device record; if absent, fail the whole
call" and "No internal allocated/free bit is flipped" — it looks the id up and
returns a copy or a `"device not found"` error, leaving the registry state
untouched (the function is pure in the state). -/
def AllocateDevice (s : ManagerState) (deviceID : String) : Except String VideoDevice :=
  match s.devices.lookup deviceID with
  | none => .error ("device not found: " ++ deviceID)
  | some d => .ok { id := d.id, path := d.path }

/-- Embeds `allocateContainer` (`device_plugin.go` lines 283-338): an empty
id list yields the empty response; otherwise only `DevicesIDs[0]` is
allocated — ids beyond the first are never consulted.  On success the single
device spec mounts the device path identically as host and container path
with `"rw"`, and `VIDEO_DEVICE` is bound to that path. -/
def allocateContainer (s : ManagerState) (devicesIDs : List String) :
    Except String ContainerAllocateResponse :=
  match devicesIDs with
  | [] => .ok {}
  | deviceID :: _ =>
    match AllocateDevice s deviceID with
    | .error e => .error ("failed to allocate device " ++ deviceID ++ ": " ++ e)
    | .ok device =>
      .ok { devices := [{ containerPath := device.path,
                          hostPath := device.path,
                          permissions := "rw" }],
            envs := [("VIDEO_DEVICE", device.path)] }

/-- Embeds `Allocate` (`device_plugin.go` lines 199-225): container requests
are served in order; the first failing `allocateContainer` aborts the whole
call with its error and no responses. -/
def Allocate (s : ManagerState) : List (List String) → Except String (List ContainerAllocateResponse)
  | [] => .ok []
  | req :: reqs =>
    match allocateContainer s req with
    | .error e => .error e
    | .ok resp =>
      match Allocate s reqs with
      | .error e => .error e
      | .ok rest => .ok (resp :: rest)

/-!
Pointer-level model for the copy-isolation property.  In Go the registry map
stores pointers to `VideoDevice` records; `GetDeviceByID` and
`ListAllDevices` return pointers to freshly allocated copies
(`&VideoDevice{ID: ..., Path: ...}`), never the internal pointers.  To make
"mutating the returned record" expressible, records live in an explicit heap
of cells addressed by `Nat` references, with a bump allocator.
-/

/-- A heap of `VideoDevice` cells: contents of every cell, plus the next
fresh address of the bump allocator. -/
structure Heap where
  cells : Nat → VideoDevice
  next : Nat

/-- Dereference. -/
def Heap.read (h : Heap) (r : Nat) : VideoDevice := h.cells r

/-- In-place mutation of the record behind reference `r`. -/
def Heap.write (h : Heap) (r : Nat) (d : VideoDevice) : Heap :=
  { h with cells := fun r' => if r' = r then d else h.cells r' }

/-- `&VideoDevice{...}`: allocate a fresh cell holding `d`, return the new
heap and the reference. -/
def Heap.alloc (h : Heap) (d : VideoDevice) : Heap × Nat :=
  ({ cells := fun r' => if r' = h.next then d else h.cells r', next := h.next + 1 },
   h.next)

/-- The registry at pointer level: the `devices` map holds references into
the heap. -/
structure RefManagerState where
  devices : List (String × Nat)

/-- Registry well-formedness: every stored reference was allocated, i.e.
lies below the allocator's high-water mark. -/
def RefWF (h : Heap) (s : RefManagerState) : Prop :=
  ∀ p ∈ s.devices, p.2 < h.next

/-- The registry state a caller observes through a `Get`: the record behind
the internal reference for `deviceID`, if any. -/
def observeGet (h : Heap) (s : RefManagerState) (deviceID : String) : Option VideoDevice :=
  match s.devices.lookup deviceID with
  | none => none
  | some r => some (h.read r)

/-- `GetDeviceByID` at pointer level (`v4l2_manager.go` lines 95-109): look
up the internal reference, read the record, allocate a fresh copy holding
`ID` and `Path`, and hand the caller the fresh reference. -/
def GetDeviceByIDRef (h : Heap) (s : RefManagerState) (deviceID : String) :
    Heap × Except String Nat :=
  match s.devices.lookup deviceID with
  | none => (h, .error ("device not found: " ++ deviceID))
  | some r =>
    let d := h.read r
    let hr := h.alloc { id := d.id, path := d.path }
    (hr.1, .ok hr.2)

/-- The copy loop of `ListAllDevices` at pointer level (`v4l2_manager.go`
lines 163-177): one fresh copy per map entry. -/
def listAllLoop (h : Heap) : List (String × Nat) → Heap × List (String × Nat)
  | [] => (h, [])
  | p :: rest =>
    let d := h.read p.2
    let hr := h.alloc { id := d.id, path := d.path }
    let tail := listAllLoop hr.1 rest
    (tail.1, (p.1, hr.2) :: tail.2)

/-- `ListAllDevices` at pointer level: copies of all registry entries. -/
def ListAllDevicesRef (h : Heap) (s : RefManagerState) : Heap × List (String × Nat) :=
  listAllLoop h s.devices

/-!
Module Recovery Controller.  The spec's §4.3 controller (Stable/Recovering
state machine with a single-flight guard around the unload/reload sequence)
is not present in the sources under `src/` — `module_manager.go` only holds
the startup load and shutdown cleanup paths — so it is modelled from the
spec below.
-/

/-- Modelled from the spec: the two states of the Module Recovery Controller
(§4.3), absent from `src/`. -/
inductive RecoveryPhase where
  | stable
  | recovering
deriving Repr, DecidableEq

/-- Modelled from the spec: events the controller reacts to — a recovery
trigger from the health checker, or completion (success / failure) of the
in-flight unload/reload sequence.  On failure the controller remains
Recovering and the same single attempt is retried, so the sequence stays the
one in flight. -/
inductive RecoveryEvent where
  | trigger
  | finish (success : Bool)
deriving Repr, DecidableEq

/-- Modelled from the spec: one controller step over the pair
(phase, number of unload/reload sequences in flight).  A trigger in Stable
starts a sequence; a trigger in Recovering is the single-flight no-op and
starts nothing; a successful finish returns to Stable with nothing in
flight; a failed finish keeps the phase and the in-flight attempt. -/
def recoveryStep : RecoveryPhase × Nat → RecoveryEvent → RecoveryPhase × Nat
  | (.stable, n), .trigger => (.recovering, n + 1)
  | (.recovering, n), .trigger => (.recovering, n)
  | (_, n), .finish true => (.stable, n - 1)
  | (p, n), .finish false => (p, n)

/-- Modelled from the spec: the trace of controller states reached from
`st` under a sequence of events (the start state included). -/
def recoveryRun (st : RecoveryPhase × Nat) : List RecoveryEvent → List (RecoveryPhase × Nat)
  | [] => [st]
  | e :: es => st :: recoveryRun (recoveryStep st e) es

/-! Concrete states and environments used by witnesses and counterexamples. -/

/-- A filesystem on which every path exists and is readable. -/
def fsAll : FileSystem := ⟨fun _ => true, fun _ => true⟩

/-- A filesystem on which every path exists but none is readable, so every
basic health probe fails. -/
def fsUnreadable : FileSystem := ⟨fun _ => true, fun _ => false⟩

/-- A registry holding exactly the device `video10`. -/
def sOne : ManagerState := ⟨[("video10", ⟨"video10", "/dev/video10", false⟩)]⟩

/-- A registry holding exactly the device `video12`. -/
def sTwelve : ManagerState := ⟨[("video12", ⟨"video12", "/dev/video12", false⟩)]⟩

/-! Helper lemmas. -/

lemma lookup_mem {β : Type} {l : List (String × β)} {k : String} {v : β}
    (h : l.lookup k = some v) : (k, v) ∈ l := by
  induction l with
  | nil => simp [List.lookup] at h
  | cons p rest ih =>
    rw [List.lookup] at h
    by_cases hk : k == p.1
    · rw [hk] at h
      cases h
      have : k = p.1 := by simpa using hk
      subst this
      exact List.mem_cons_self _ _
    · rw [Bool.of_not_eq_true hk] at h
      exact List.mem_cons_of_mem _ (ih h)

/-- `sendDeviceList` advertises exactly the registry's records, every one
`Healthy`: the copies built by `ListAllDevices` carry `allocated = false`,
so the `!device.Allocated` filter in `sendDeviceList` passes all of them. -/
lemma sendDeviceList_eq (s : ManagerState) :
    sendDeviceList s = s.devices.map (fun p => ⟨p.2.id, Health.healthy⟩) := by
  obtain ⟨devs⟩ := s
  induction devs with
  | nil => rfl
  | cons p rest ih =>
    simpa [sendDeviceList, ListAllDevices, List.filterMap_cons] using ih

/-- Claim C10: an allocate request for a container with an empty device-id
list yields the empty container response — no device specs, no environment
variables — and no error.  (`allocateContainer` is a pure function of the
registry state, so the registry is unchanged by construction.) -/
theorem claim_C10_empty_request (s : ManagerState) :
    allocateContainer s [] = .ok { devices := [], envs := [] } := rfl

/-- Claim C4: discovery is idempotent — for every filesystem state and count,
the registry's device-id set after a second discovery run (whatever state the
first run produced, and in fact from any starting state) equals the set after
the first run. -/
theorem claim_C4_discovery_idempotent (fs : FileSystem) (count : Nat) (s : ManagerState) :
    ((CreateDevices fs count ((CreateDevices fs count s).1)).1).devices.map Prod.fst =
      ((CreateDevices fs count s).1).devices.map Prod.fst ∧
    ∀ sOther : ManagerState,
      ((CreateDevices fs count sOther).1).devices.map Prod.fst =
        ((CreateDevices fs count s).1).devices.map Prod.fst :=
  ⟨rfl, fun _ => rfl⟩

/-- Claim C5: allocating a single registered (healthy) device returns exactly
one device spec whose host and container paths both equal the device's path,
with permission string `"rw"`, and the env var `VIDEO_DEVICE` bound to that
same path. -/
theorem claim_C5_single_allocate (s : ManagerState) (fs : FileSystem)
    (deviceID : String) (d : VideoDevice)
    (hlook : s.devices.lookup deviceID = some d)
    (_hhealthy : GetDeviceHealth fs s deviceID = true) :
    allocateContainer s [deviceID] =
      .ok { devices := [{ containerPath := d.path, hostPath := d.path, permissions := "rw" }],
            envs := [("VIDEO_DEVICE", d.path)] } := by
  simp [allocateContainer, AllocateDevice, hlook]

/-- Witness for C5: requesting `video12` against a registry holding it (on a
filesystem where it is healthy) yields host path `/dev/video12`, container
path `/dev/video12`, permission `rw`, and `VIDEO_DEVICE=/dev/video12`. -/
theorem claim_C5_witness :
    allocateContainer sTwelve ["video12"] =
      .ok { devices := [{ containerPath := "/dev/video12", hostPath := "/dev/video12",
                          permissions := "rw" }],
            envs := [("VIDEO_DEVICE", "/dev/video12")] } :=
  claim_C5_single_allocate sTwelve fsAll "video12" ⟨"video12", "/dev/video12", false⟩
    (by rfl) (by rfl)

/-- Claim C8: the capability check classifies a probe timeout or a probe
command failure (non-zero exit) as the device being unhealthy — it returns
`false`.  The function is total with result type `Bool`, so no error is ever
propagated to the caller; the timeout case is an explicit probe outcome,
modelling the deadline `exec.CommandContext` enforces. -/
theorem claim_C8_probe_failure_unhealthy (probe : String → Nat → ProbeOutcome)
    (path : String) (timeoutSeconds : Nat)
    (h : probe path timeoutSeconds = .timeout ∨ probe path timeoutSeconds = .exitError) :
    HasVideoCaptureCapability probe path timeoutSeconds = false := by
  rcases h with h | h <;> simp [HasVideoCaptureCapability, h]

/-- Witness for C8: a probe that times out on `/dev/video14` with a 3-second
budget yields `false`. -/
theorem claim_C8_witness :
    HasVideoCaptureCapability (fun _ _ => ProbeOutcome.timeout) "/dev/video14" 3 = false :=
  claim_C8_probe_failure_unhealthy (fun _ _ => ProbeOutcome.timeout) "/dev/video14" 3
    (Or.inl rfl)

/-- The error message `allocateContainer` wraps around the not-found error,
with the string literals merged. -/
lemma notFoundMsg (d : String) :
    "failed to allocate device " ++ d ++ ": " ++ ("device not found: " ++ d) =
      "failed to allocate device " ++ d ++ ": device not found: " ++ d := by
  simp only [String.append_assoc]
  congr 1

/-- Every error produced by `allocateContainer` is a device-not-found failure
on the request's first id: the handler consults only `DevicesIDs[0]`. -/
lemma allocateContainer_error_shape (s : ManagerState) (req : List String)
    (e : String) (h : allocateContainer s req = .error e) :
    ∃ deviceID rest, req = deviceID :: rest ∧ s.devices.lookup deviceID = none ∧
      e = "failed to allocate device " ++ deviceID ++ ": device not found: " ++ deviceID := by
  match req with
  | [] => simp [allocateContainer] at h
  | deviceID :: rest =>
    refine ⟨deviceID, rest, rfl, ?_⟩
    rw [allocateContainer] at h
    cases hl : s.devices.lookup deviceID with
    | none =>
      rw [AllocateDevice, hl] at h
      cases h
      exact ⟨rfl, notFoundMsg deviceID⟩
    | some d => rw [AllocateDevice, hl] at h; cases h

/-- `allocateContainer` fails with the device-not-found error whenever the
first requested id is absent from the registry. -/
lemma allocateContainer_first_unknown (s : ManagerState) (deviceID : String)
    (rest : List String) (h : s.devices.lookup deviceID = none) :
    allocateContainer s (deviceID :: rest) =
      .error ("failed to allocate device " ++ deviceID ++ ": device not found: " ++ deviceID) := by
  rw [allocateContainer, AllocateDevice, h]
  exact congrArg Except.error (notFoundMsg deviceID)

/-- Counterexample to claim C1 as stated: the registry holds only `video10`;
the Allocate call names the two ids `video10` and `video99`, of which
`video99` was never discovered — yet the call succeeds and returns
device-path and env-var data (for `video10`), because `allocateContainer`
consults only the first id of each container request. -/
theorem claim_C1_counterexample :
    sOne.devices.lookup "video99" = none ∧
    Allocate sOne [["video10", "video99"]] =
      .ok [{ devices := [{ containerPath := "/dev/video10", hostPath := "/dev/video10",
                           permissions := "rw" }],
             envs := [("VIDEO_DEVICE", "/dev/video10")] }] :=
  ⟨rfl, rfl⟩

/-- Claim C1 as amended: an Allocate call fails — with the device-not-found
error for some unknown id, hence with no device-path or env-var data for any
id — whenever some container request's FIRST device id is not present in the
registry; ids after the first of a request are never consulted.  (The
handler is a pure function of the registry state, so the registry is
unchanged by construction.) -/
theorem claim_C1_first_id_unknown (s : ManagerState) (reqs : List (List String))
    (h : ∃ req ∈ reqs, ∃ deviceID rest, req = deviceID :: rest ∧
      s.devices.lookup deviceID = none) :
    (∃ deviceID, s.devices.lookup deviceID = none ∧
      Allocate s reqs =
        .error ("failed to allocate device " ++ deviceID ++ ": device not found: " ++ deviceID)) ∧
    ∀ resps, Allocate s reqs ≠ .ok resps := by
  have main : ∃ deviceID, s.devices.lookup deviceID = none ∧
      Allocate s reqs =
        .error ("failed to allocate device " ++ deviceID ++ ": device not found: " ++ deviceID) := by
    induction reqs with
    | nil => simp at h
    | cons r rs ih =>
      obtain ⟨req, hreq, deviceID, rest, hform, hnone⟩ := h
      rcases List.mem_cons.mp hreq with hr | hr
      · subst hr; subst hform
        exact ⟨deviceID, hnone, by
          rw [Allocate, allocateContainer_first_unknown s deviceID rest hnone]⟩
      · cases hc : allocateContainer s r with
        | error e =>
          obtain ⟨i, tl, hif, hinone, he⟩ := allocateContainer_error_shape s r e hc
          exact ⟨i, hinone, by rw [Allocate, hc, he]⟩
        | ok resp =>
          obtain ⟨i, hinone, hrec⟩ := ih ⟨req, hr, deviceID, rest, hform, hnone⟩
          exact ⟨i, hinone, by rw [Allocate, hc, hrec]⟩
  refine ⟨main, ?_⟩
  obtain ⟨i, _, he⟩ := main
  intro resps hok
  rw [he] at hok
  cases hok

/-- Witness for the amended C1: calling Allocate for the single id `video99`
against the registry holding only `video10` fails with the device-not-found
error and returns no response data. -/
theorem claim_C1_witness :
    (∃ deviceID, sOne.devices.lookup deviceID = none ∧
      Allocate sOne [["video99"]] =
        .error ("failed to allocate device " ++ deviceID ++ ": device not found: " ++ deviceID)) ∧
    ∀ resps, Allocate sOne [["video99"]] ≠ .ok resps :=
  claim_C1_first_id_unknown sOne [["video99"]]
    ⟨["video99"], by simp, "video99", [], rfl, rfl⟩

/-- Counterexample to claim C2 as stated: the registry holds `video10`, whose
device node is unreadable, so its basic health probe reports failure
(`GetDeviceHealth` is `false`) and its capability probe times out
(`HasVideoCaptureCapability` is `false`) — yet the advertise update still
reports `video10` as `Healthy`: `sendDeviceList` never consults any probe. -/
theorem claim_C2_counterexample :
    GetDeviceHealth fsUnreadable sOne "video10" = false ∧
    HasVideoCaptureCapability (fun _ _ => ProbeOutcome.timeout) "/dev/video10" 3 = false ∧
    sendDeviceList sOne = [⟨"video10", Health.healthy⟩] :=
  ⟨rfl, rfl, rfl⟩

/-- Claim C2 as amended: the advertise stream sends one update on stream open
and one per subsequent trigger or cadence tick; every update is computed from
the registry state current at that moment and contains every registered
device exactly once (none omitted — the listing copies reset the internal
`Allocated` flag, so even internally-allocated records pass the filter), and
every advertised device is marked `Healthy` unconditionally, regardless of
any health or capability probe result. -/
theorem claim_C2_stream_contents (s0 : ManagerState) (laterStates : List ManagerState)
    (u : List PluginDevice) (hu : u ∈ ListAndWatchStream s0 laterStates) :
    (ListAndWatchStream s0 laterStates).length = laterStates.length + 1 ∧
    ∃ s, (s = s0 ∨ s ∈ laterStates) ∧
      u.map PluginDevice.id = s.devices.map (fun p => p.2.id) ∧
      ∀ d ∈ u, d.health = Health.healthy := by
  constructor
  · simp [ListAndWatchStream]
  · have key : ∀ s : ManagerState,
        (sendDeviceList s).map PluginDevice.id = s.devices.map (fun p => p.2.id) ∧
        ∀ d ∈ sendDeviceList s, d.health = Health.healthy := by
      intro s
      rw [sendDeviceList_eq]
      constructor
      · simp
      · intro d hd
        obtain ⟨p, _, hp⟩ := List.mem_map.mp hd
        rw [← hp]
    rcases List.mem_cons.mp hu with hcase | hcase
    · exact ⟨s0, Or.inl rfl, by rw [hcase]; exact key s0⟩
    · obtain ⟨s, hs, hus⟩ := List.mem_map.mp hcase
      exact ⟨s, Or.inr hs, by rw [← hus]; exact key s⟩

/-- Witness for the amended C2: a one-update stream over the `video10`
registry has length 1 and its update lists exactly `video10`, marked
`Healthy`. -/
theorem claim_C2_witness :
    (ListAndWatchStream sOne []).length = List.length ([] : List ManagerState) + 1 ∧
    ∃ s, (s = sOne ∨ s ∈ ([] : List ManagerState)) ∧
      (sendDeviceList sOne).map PluginDevice.id = s.devices.map (fun p => p.2.id) ∧
      ∀ d ∈ sendDeviceList sOne, d.health = Health.healthy :=
  claim_C2_stream_contents sOne [] (sendDeviceList sOne) (by simp [ListAndWatchStream])

/-- Membership in the discovery loop's result: exactly the ordinals of
`[VideoDeviceStartNumber, VideoDeviceStartNumber + count)` whose node exists
and is readable, each contributing the record `(videoN, /dev/videoN)`. -/
lemma mem_discoverLoop (fs : FileSystem) (count : Nat) (deviceID : String) (dev : VideoDevice) :
    (deviceID, dev) ∈ discoverLoop fs count ↔
      ∃ n, VideoDeviceStartNumber ≤ n ∧ n < VideoDeviceStartNumber + count ∧
        deviceID = deviceId n ∧ dev = ⟨deviceId n, devicePath n, false⟩ ∧
        checkDeviceExists fs (devicePath n) = true ∧
        checkDeviceReadable fs (devicePath n) = true := by
  rw [discoverLoop]
  simp only [List.mem_filterMap, List.mem_range]
  constructor
  · rintro ⟨i, hi, hf⟩
    by_cases hc : checkDeviceExists fs (devicePath (VideoDeviceStartNumber + i)) &&
        checkDeviceReadable fs (devicePath (VideoDeviceStartNumber + i))
    · rw [if_pos hc] at hf
      injection hf with hpair
      rw [Prod.ext_iff] at hpair
      obtain ⟨h1, h2⟩ := hpair
      refine ⟨VideoDeviceStartNumber + i, Nat.le_add_right _ _, by omega,
        h1.symm, h2.symm, ?_, ?_⟩
      · exact (Bool.and_eq_true ..).mp hc |>.1
      · exact (Bool.and_eq_true ..).mp hc |>.2
    · rw [if_neg hc] at hf
      cases hf
  · rintro ⟨n, hlo, hhi, hid, hdev, hex, hrd⟩
    refine ⟨n - VideoDeviceStartNumber, by omega, ?_⟩
    have hn : VideoDeviceStartNumber + (n - VideoDeviceStartNumber) = n := by omega
    rw [hn, if_pos (by rw [hex, hrd]; rfl), hid, hdev]

/-- Claim C3: discovery with argument `count` scans exactly the ordinal range
`[start, start+count)` with `start = 10`, inserting a record
`(videoN, /dev/videoN)` precisely for the ordinals whose node exists and is
readable; the result fully replaces any prior device set (the new registry is
a function of the filesystem and `count` alone); the error is reported iff
zero devices were discovered; and with `count = 8` and all of
`/dev/video10`..`/dev/video17` present and readable, the registry holds
exactly the 8 records `video10`..`video17`. -/
theorem claim_C3_discovery_range (fs : FileSystem) (count : Nat) (s : ManagerState) :
    (∀ deviceID dev, (deviceID, dev) ∈ ((CreateDevices fs count s).1).devices ↔
      ∃ n, VideoDeviceStartNumber ≤ n ∧ n < VideoDeviceStartNumber + count ∧
        deviceID = deviceId n ∧ dev = ⟨deviceId n, devicePath n, false⟩ ∧
        checkDeviceExists fs (devicePath n) = true ∧
        checkDeviceReadable fs (devicePath n) = true) ∧
    (((CreateDevices fs count s).2).isSome ↔ ((CreateDevices fs count s).1).devices = []) ∧
    ((∀ n, VideoDeviceStartNumber ≤ n → n < VideoDeviceStartNumber + 8 →
        checkDeviceExists fs (devicePath n) = true ∧
        checkDeviceReadable fs (devicePath n) = true) →
      ((CreateDevices fs 8 s).1).devices.map Prod.fst =
        ["video10", "video11", "video12", "video13",
         "video14", "video15", "video16", "video17"] ∧
      (CreateDevices fs 8 s).2 = none) := by
  refine ⟨fun deviceID dev => mem_discoverLoop fs count deviceID dev, ?_, ?_⟩
  · rw [CreateDevices]
    cases hds : (discoverLoop fs count).isEmpty <;>
      simp_all [List.isEmpty_iff]
  · intro h
    have hstep : ∀ n, VideoDeviceStartNumber ≤ n → n < VideoDeviceStartNumber + 8 →
        (checkDeviceExists fs (devicePath n) && checkDeviceReadable fs (devicePath n)) = true := by
      intro n h1 h2
      rw [(h n h1 h2).1, (h n h1 h2).2]
      rfl
    have hloop : discoverLoop fs 8 =
        [(deviceId 10, ⟨deviceId 10, devicePath 10, false⟩),
         (deviceId 11, ⟨deviceId 11, devicePath 11, false⟩),
         (deviceId 12, ⟨deviceId 12, devicePath 12, false⟩),
         (deviceId 13, ⟨deviceId 13, devicePath 13, false⟩),
         (deviceId 14, ⟨deviceId 14, devicePath 14, false⟩),
         (deviceId 15, ⟨deviceId 15, devicePath 15, false⟩),
         (deviceId 16, ⟨deviceId 16, devicePath 16, false⟩),
         (deviceId 17, ⟨deviceId 17, devicePath 17, false⟩)] := by
      rw [discoverLoop]
      have e10 := hstep 10 (by decide) (by decide)
      have e11 := hstep 11 (by decide) (by decide)
      have e12 := hstep 12 (by decide) (by decide)
      have e13 := hstep 13 (by decide) (by decide)
      have e14 := hstep 14 (by decide) (by decide)
      have e15 := hstep 15 (by decide) (by decide)
      have e16 := hstep 16 (by decide) (by decide)
      have e17 := hstep 17 (by decide) (by decide)
      simp [List.range_succ, VideoDeviceStartNumber] at e10 e11 e12 e13 e14 e15 e16 e17 ⊢
      simp [e10, e11, e12, e13, e14, e15, e16, e17]
    constructor
    · rw [CreateDevices]
      simp only [hloop]
      rfl
    · rw [CreateDevices]
      simp only [hloop]
      rfl

/-- Witness for C3: on a filesystem where every node exists and is readable,
discovery with count 8 registers exactly `video10`..`video17` and reports no
error. -/
theorem claim_C3_witness :
    ((CreateDevices fsAll 8 ⟨[]⟩).1).devices.map Prod.fst =
      ["video10", "video11", "video12", "video13",
       "video14", "video15", "video16", "video17"] ∧
    (CreateDevices fsAll 8 ⟨[]⟩).2 = none :=
  (claim_C3_discovery_range fsAll 8 ⟨[]⟩).2.2 (fun _ _ _ => ⟨rfl, rfl⟩)

/-- Counting with a `Finset` filter agrees with the length of the embedded
code's `List.filter` over the same range. -/
lemma card_filter_range (n : Nat) (p : Nat → Bool) :
    ((Finset.range n).filter (fun i => p i = true)).card = ((List.range n).filter p).length := by
  induction n with
  | zero => simp
  | succ k ih =>
    rw [Finset.range_succ, Finset.filter_insert, List.range_succ, List.filter_append]
    by_cases hp : p k = true
    · rw [if_pos hp]
      rw [Finset.card_insert_of_not_mem (by simp)]
      simp [hp, ih]
    · rw [if_neg hp]
      simp only [List.filter_cons, List.filter_nil]
      rw [Bool.of_not_eq_true hp]
      simp [ih]

/-- Claim C7: when the registry's device map is empty, `IsHealthy` and
`GetDeviceCount` fall back to probing the fixed ordinal range
`[start, start + maxDevices)` on the filesystem directly — healthy iff every
probed node exists and is readable, and the count is the number of existing
nodes; when the map is non-empty, both are computed from the registered
records only (all records exist and readable, resp. the number of records). -/
theorem claim_C7_empty_registry_fallback (fs : FileSystem) (maxDevices : Nat)
    (s : ManagerState) :
    (s.devices = [] →
      ((IsHealthy fs s maxDevices = true) ↔
        (∀ n, VideoDeviceStartNumber ≤ n → n < VideoDeviceStartNumber + maxDevices →
          checkDeviceExists fs (devicePath n) = true ∧
          checkDeviceReadable fs (devicePath n) = true)) ∧
      GetDeviceCount fs s maxDevices =
        ((Finset.range maxDevices).filter (fun i =>
          checkDeviceExists fs (devicePath (VideoDeviceStartNumber + i)) = true)).card) ∧
    (s.devices ≠ [] →
      ((IsHealthy fs s maxDevices = true) ↔
        (∀ p ∈ s.devices, checkDeviceExists fs p.2.path = true ∧
          checkDeviceReadable fs p.2.path = true)) ∧
      GetDeviceCount fs s maxDevices = s.devices.length) := by
  constructor
  · intro hempty
    have hlen : ¬ s.devices.length > 0 := by rw [hempty]; simp
    constructor
    · rw [IsHealthy, if_neg hlen]
      rw [List.all_eq_true]
      constructor
      · intro h n h1 h2
        have := h (n - VideoDeviceStartNumber) (by rw [List.mem_range]; omega)
        have hn : VideoDeviceStartNumber + (n - VideoDeviceStartNumber) = n := by omega
        rw [hn] at this
        exact Bool.and_eq_true .. |>.mp this
      · intro h i hi
        rw [List.mem_range] at hi
        have := h (VideoDeviceStartNumber + i) (Nat.le_add_right _ _) (by omega)
        rw [Bool.and_eq_true]
        exact this
    · rw [GetDeviceCount, if_neg hlen, card_filter_range]
  · intro hne
    have hlen : s.devices.length > 0 := by
      cases hd : s.devices with
      | nil => exact absurd hd hne
      | cons p rest => exact Nat.succ_pos _
    constructor
    · rw [IsHealthy, if_pos hlen, List.all_eq_true]
      constructor
      · intro h p hp
        exact Bool.and_eq_true .. |>.mp (h p hp)
      · intro h p hp
        rw [Bool.and_eq_true]
        exact h p hp
    · rw [GetDeviceCount, if_pos hlen]

/-- Witness for C7: with an empty registry over the all-readable filesystem
and `maxDevices = 2`, the fallback characterizations hold concretely. -/
theorem claim_C7_witness :
    ((IsHealthy fsAll ⟨[]⟩ 2 = true) ↔
      (∀ n, VideoDeviceStartNumber ≤ n → n < VideoDeviceStartNumber + 2 →
        checkDeviceExists fsAll (devicePath n) = true ∧
        checkDeviceReadable fsAll (devicePath n) = true)) ∧
    GetDeviceCount fsAll ⟨[]⟩ 2 =
      ((Finset.range 2).filter (fun i =>
        checkDeviceExists fsAll (devicePath (VideoDeviceStartNumber + i)) = true)).card :=
  (claim_C7_empty_registry_fallback fsAll 2 ⟨[]⟩).1 rfl

/-! Lemmas for the pointer-level copy-isolation proof. -/

/-- The copy loop only ever allocates, so the high-water mark never drops. -/
lemma listAllLoop_next_le (h : Heap) (l : List (String × Nat)) :
    h.next ≤ (listAllLoop h l).1.next := by
  induction l generalizing h with
  | nil => exact Nat.le_refl _
  | cons p rest ih =>
    rw [listAllLoop]
    dsimp only
    exact Nat.le_trans (Nat.le_succ _)
      (ih ((h.alloc { id := (h.read p.2).id, path := (h.read p.2).path }).1))

/-- The copy loop writes only to freshly allocated cells: every cell below the
starting high-water mark is untouched. -/
lemma listAllLoop_cells_low (h : Heap) (l : List (String × Nat)) (r : Nat)
    (hr : r < h.next) : (listAllLoop h l).1.cells r = h.cells r := by
  induction l generalizing h with
  | nil => rfl
  | cons p rest ih =>
    rw [listAllLoop]
    have hstep : ((h.alloc { id := (h.read p.2).id, path := (h.read p.2).path }).1).cells r =
        h.cells r := by
      rw [Heap.alloc]
      exact if_neg (by omega)
    rw [ih _ (by rw [Heap.alloc]; exact Nat.lt_succ_of_lt hr), hstep]

/-- Every reference the copy loop returns is fresh: at or above the starting
high-water mark. -/
lemma listAllLoop_refs_ge (h : Heap) (l : List (String × Nat)) :
    ∀ pr ∈ (listAllLoop h l).2, h.next ≤ pr.2 := by
  induction l generalizing h with
  | nil => intro pr hpr; cases hpr
  | cons p rest ih =>
    intro pr hpr
    rw [listAllLoop] at hpr
    rcases List.mem_cons.mp hpr with hpr | hpr
    · rw [hpr]; exact Nat.le_refl _
    · exact Nat.le_trans (Nat.le_succ _) (ih _ pr hpr)

/-- Claim C6: the registry hands out copies, never internal references.
Mutating the record returned by `Get` (`GetDeviceByID`) or any record
returned by `List` (`ListAllDevices`) — an in-place heap write through the
returned reference — leaves the registry state observed by a subsequent `Get`
unchanged, for every device id. -/
theorem claim_C6_copy_isolation (h : Heap) (s : RefManagerState) (hwf : RefWF h s) :
    (∀ deviceID hOut rNew, GetDeviceByIDRef h s deviceID = (hOut, .ok rNew) →
      ∀ dMut anyID, observeGet (hOut.write rNew dMut) s anyID = observeGet h s anyID) ∧
    (∀ pr ∈ (ListAllDevicesRef h s).2, ∀ dMut anyID,
      observeGet (((ListAllDevicesRef h s).1).write pr.2 dMut) s anyID =
        observeGet h s anyID) := by
  constructor
  · intro deviceID hOut rNew hget dMut anyID
    rw [GetDeviceByIDRef] at hget
    cases hl : s.devices.lookup deviceID with
    | none => rw [hl] at hget; cases hget
    | some r =>
      rw [hl] at hget
      injection hget with hh hr
      injection hr with hrNew
      subst hh
      subst hrNew
      rw [observeGet, observeGet]
      cases ha : s.devices.lookup anyID with
      | none => rfl
      | some r2 =>
        have hr2 : r2 < h.next := hwf (anyID, r2) (lookup_mem ha)
        have hcell :
            ((((h.alloc { id := (h.cells r).id, path := (h.cells r).path }).1).write
              ((h.alloc { id := (h.cells r).id, path := (h.cells r).path }).2) dMut).cells) r2 =
              h.cells r2 := by
          simp only [Heap.alloc, Heap.write]
          rw [if_neg (by omega), if_neg (by omega)]
        show some _ = some _
        simp only [Heap.read]
        rw [hcell]
  · intro pr hpr dMut anyID
    have hfresh : h.next ≤ pr.2 := listAllLoop_refs_ge h s.devices pr hpr
    rw [observeGet, observeGet]
    cases ha : s.devices.lookup anyID with
    | none => rfl
    | some r2 =>
      have hr2 : r2 < h.next := hwf (anyID, r2) (lookup_mem ha)
      have hcell : ((((ListAllDevicesRef h s).1).write pr.2 dMut).cells) r2 = h.cells r2 := by
        simp only [Heap.write]
        rw [if_neg (by omega)]
        exact listAllLoop_cells_low h s.devices r2 hr2
      show some _ = some _
      rw [Heap.read, Heap.read, hcell]

/-- The concrete heap used by the C6 witness: cell 0 holds the `video10`
record, the next fresh address is 1. -/
def heapEx : Heap :=
  ⟨fun r => if r = 0 then ⟨"video10", "/dev/video10", false⟩ else ⟨"", "", false⟩, 1⟩

/-- The concrete pointer-level registry used by the C6 witness: `video10`
behind reference 0. -/
def refStateEx : RefManagerState := ⟨[("video10", 0)]⟩

/-- Witness for C6: after `Get`-ting `video10` from the concrete registry and
overwriting the returned copy (reference 1) with garbage, a subsequent `Get`
of `video10` observes the same record as before. -/
theorem claim_C6_witness :
    observeGet ((((GetDeviceByIDRef heapEx refStateEx "video10").1).write 1
      ⟨"mutated", "/dev/null", true⟩)) refStateEx "video10" =
      observeGet heapEx refStateEx "video10" :=
  (claim_C6_copy_isolation heapEx refStateEx
      (by intro p hp; simp only [refStateEx] at hp; rw [List.mem_singleton] at hp;
          rw [hp]; exact Nat.zero_lt_one)).1
    "video10" (GetDeviceByIDRef heapEx refStateEx "video10").1 1 rfl
    ⟨"mutated", "/dev/null", true⟩ "video10"

/-- Claim C9 (spec-modelled): triggering module recovery while a recovery is
already in progress is a no-op — the state and in-flight count are unchanged
and no new unload/reload sequence starts — and along every event trace from
the initial Stable state, the number of unload/reload sequences in flight
never exceeds one. -/
theorem claim_C9_recovery_single_flight :
    (∀ n, recoveryStep (RecoveryPhase.recovering, n) RecoveryEvent.trigger =
      (RecoveryPhase.recovering, n)) ∧
    ∀ events st, st ∈ recoveryRun (RecoveryPhase.stable, 0) events → st.2 ≤ 1 := by
  constructor
  · intro n; rfl
  · have inv_step : ∀ p n e,
        ((p = RecoveryPhase.recovering → n = 1) ∧ (p = RecoveryPhase.stable → n = 0)) →
        (((recoveryStep (p, n) e).1 = RecoveryPhase.recovering →
            (recoveryStep (p, n) e).2 = 1) ∧
         ((recoveryStep (p, n) e).1 = RecoveryPhase.stable →
            (recoveryStep (p, n) e).2 = 0)) := by
      intro p n e hinv
      obtain ⟨h1, h2⟩ := hinv
      cases p with
      | stable =>
        have hn : n = 0 := h2 rfl
        subst hn
        cases e with
        | trigger => exact ⟨fun _ => rfl, fun hc => by cases hc⟩
        | finish success =>
          cases success with
          | false => exact ⟨fun hc => (by cases hc), fun _ => rfl⟩
          | true => exact ⟨fun hc => (by cases hc), fun _ => rfl⟩
      | recovering =>
        have hn : n = 1 := h1 rfl
        subst hn
        cases e with
        | trigger => exact ⟨fun _ => rfl, fun hc => by cases hc⟩
        | finish success =>
          cases success with
          | false => exact ⟨fun _ => rfl, fun hc => by cases hc⟩
          | true => exact ⟨fun hc => (by cases hc), fun _ => rfl⟩
    have run_inv : ∀ events st0,
        ((st0.1 = RecoveryPhase.recovering → st0.2 = 1) ∧
         (st0.1 = RecoveryPhase.stable → st0.2 = 0)) →
        ∀ st ∈ recoveryRun st0 events,
          (st.1 = RecoveryPhase.recovering → st.2 = 1) ∧
          (st.1 = RecoveryPhase.stable → st.2 = 0) := by
      intro events
      induction events with
      | nil =>
        intro st0 h0 st hst
        rw [recoveryRun, List.mem_singleton] at hst
        rw [hst]; exact h0
      | cons e es ih =>
        intro st0 h0 st hst
        rw [recoveryRun] at hst
        rcases List.mem_cons.mp hst with hst | hst
        · rw [hst]; exact h0
        · exact ih _ (inv_step st0.1 st0.2 e h0) st hst
    intro events st hst
    have := run_inv events (RecoveryPhase.stable, 0)
      ⟨fun hc => (by cases hc), fun _ => rfl⟩ st hst
    rcases hp : st.1 with _ | _
    · rw [this.2 hp]; exact Nat.zero_le _
    · rw [this.1 hp]

/-- Witness for C9: a second trigger arriving while Recovering (one sequence
in flight) changes nothing, and the Recovering state reached by one trigger
from Stable has exactly one sequence in flight, which is at most one. -/
theorem claim_C9_witness :
    recoveryStep (RecoveryPhase.recovering, 1) RecoveryEvent.trigger =
      (RecoveryPhase.recovering, 1) ∧
    ((RecoveryPhase.recovering, 1) : RecoveryPhase × Nat).2 ≤ 1 :=
  ⟨claim_C9_recovery_single_flight.1 1,
   claim_C9_recovery_single_flight.2 [RecoveryEvent.trigger] (RecoveryPhase.recovering, 1)
     (by rw [recoveryRun, recoveryRun]; exact List.mem_cons_of_mem _ (List.mem_singleton.mpr rfl))⟩

end VideoPlugin
